import Mathlib

/-!
Shallow embedding of `probe_floppy.py`: a floppy-disk format classifier.

The program reads raw track images (via an external `fluxengine` capture
subprocess) and runs four heuristic probes (BPB/FAT, Macintosh, Amiga,
Commodore 1541) in a fixed order, stopping at the first probe that reports
a format.

Modelling conventions:
  * a byte buffer (Python `bytearray`) is a `List Nat`;
  * Python exceptions are modelled with `Except PyErr`: indexing past the
    end of a buffer yields `PyErr.indexError`, and `bytearray` applied to a
    `str` without an encoding yields `PyErr.typeError`;
  * track acquisition (`read_track` calling the external subprocess) is
    abstracted as a pure function `Acquire` from decoder name and cylinder
    to the acquired buffer; the post-processing of the subprocess outcome is
    modelled separately as `read_track`;
  * Python `float` division in the FAT cluster computation is modelled with
    `ℚ`, which is exact for the quantities involved (a 16-bit numerator and
    a power-of-two divisor).
-/

/-- Python errors that the probe code can raise. -/
inductive PyErr : Type
  | indexError
  | typeError
deriving DecidableEq, Repr

/-- A byte buffer (Python `bytearray`/`bytes`): a list of byte values. -/
abbrev Buffer : Type := List Nat

/-- A probe verdict: `(format, filesystem)`, both optional (Python `None`). -/
abbrev Verdict : Type := Option String × Option String

/-- The media size selected with `--size`, restricted by argparse to
`"3.5"` or `"5.25"`. -/
inductive MediaSize : Type
  | threeFive
  | fiveTwoFive
deriving DecidableEq, Repr

/-- Track acquisition abstracted: decoder name and cylinder to buffer. -/
abbrev Acquire : Type := String → Nat → Buffer

/-- Python `data[i]` on a buffer: the byte, or an `IndexError` when out of
range (negative indices never occur in the probes). -/
def getByte (data : Buffer) (i : Nat) : Except PyErr Nat :=
  match data.get? i with
  | some b => Except.ok b
  | none => Except.error PyErr.indexError

/-- Total version of buffer indexing used to state theorems: the byte at
`i`, defaulting to 0 out of range. -/
def byteD (data : Buffer) (i : Nat) : Nat :=
  (data.get? i).getD 0

/-- `get_word` (line 193): a 16-bit value at `offset`, big- or
little-endian; an out-of-range index raises. -/
def get_word (data : Buffer) (offset : Nat) (big_endian : Bool := false) :
    Except PyErr Nat :=
  match getByte data offset with
  | Except.error e => Except.error e
  | Except.ok b0 =>
    match getByte data (offset + 1) with
    | Except.error e => Except.error e
    | Except.ok b1 =>
      Except.ok (if big_endian then b0 * 256 + b1 else b0 + b1 * 256)

/-- Total version of `get_word` used to state theorems. -/
def wordD (data : Buffer) (offset : Nat) (big_endian : Bool) : Nat :=
  if big_endian then byteD data offset * 256 + byteD data (offset + 1)
  else byteD data offset + byteD data (offset + 1) * 256

/-- `get_string` (line 185): the character codes of the `length` bytes
starting at `offset`; an out-of-range index raises. -/
def get_string (data : Buffer) (offset length : Nat) :
    Except PyErr (List Nat) :=
  match length with
  | 0 => Except.ok []
  | Nat.succ l =>
    match getByte data offset with
    | Except.error e => Except.error e
    | Except.ok b =>
      match get_string data (offset + 1) l with
      | Except.error e => Except.error e
      | Except.ok rest => Except.ok (b :: rest)

/-- `has_data` (line 181): true when the buffer holds a non-zero byte. -/
def has_data (data : Buffer) : Bool :=
  decide (0 < (data.filter (fun x => x != 0)).length)

/-- The `bpb_probes` table (lines 42-45): candidate formats per media size
with their expected total logical sector counts. -/
def bpb_probes (size : MediaSize) : List (String × Nat) :=
  match size with
  | MediaSize.threeFive => [("ibm1440", 2880), ("ibm720", 1440)]
  | MediaSize.fiveTwoFive =>
      [("ibm1200", 2400), ("ibm360", 720), ("ibm320", 640),
       ("ibm180", 360), ("ibm160", 320)]

/-- The candidate loop of `probe_bpb` (lines 48-91): try each candidate
format in table order, returning at the first full BPB match and falling
through to `(none, none)` (the `for`/`else` arm) when all fail. -/
def probe_bpb_go (acquire : Acquire) : List (String × Nat) → Except PyErr Verdict
  | [] => Except.ok (none, none)
  | (format, expected) :: rest =>
    let data := acquire format 0
    if has_data data then
      match get_word data 0x1fe false with
      | Except.error e => Except.error e
      | Except.ok sig =>
        if sig = 0xaa55 then
          match getByte data 0 with
          | Except.error e => Except.error e
          | Except.ok b0 =>
            if b0 = 0xeb ∨ b0 = 0xe9 then
              match get_word data 0x13 false with
              | Except.error e => Except.error e
              | Except.ok bpb_total_sectors =>
                if bpb_total_sectors = expected then
                  match getByte data 0x0d with
                  | Except.error e => Except.error e
                  | Except.ok bpb_sectors_per_cluster =>
                    if bpb_sectors_per_cluster = 1 ∨ bpb_sectors_per_cluster = 2 ∨
                        bpb_sectors_per_cluster = 4 ∨ bpb_sectors_per_cluster = 8 ∨
                        bpb_sectors_per_cluster = 16 ∨ bpb_sectors_per_cluster = 32 ∨
                        bpb_sectors_per_cluster = 64 ∨ bpb_sectors_per_cluster = 128 then
                      let cluster_count : ℚ :=
                        (bpb_total_sectors : ℚ) / (bpb_sectors_per_cluster : ℚ)
                      let filesystem : String :=
                        if cluster_count < 4085 then "fat12"
                        else if cluster_count < 65525 then "fat16"
                        else "fat32"
                      Except.ok (some format, some filesystem)
                    else probe_bpb_go acquire rest
                else probe_bpb_go acquire rest
            else probe_bpb_go acquire rest
        else probe_bpb_go acquire rest
    else probe_bpb_go acquire rest

/-- `probe_bpb` (lines 36-92). -/
def probe_bpb (acquire : Acquire) (size : MediaSize) : Except PyErr Verdict :=
  probe_bpb_go acquire (bpb_probes size)

/-- The `mac800` phase of `probe_mac` (lines 112-131), reached when the
`ibm1440` check did not return. -/
def probe_mac_phase2 (acquire : Acquire) : Except PyErr Verdict :=
  let data := acquire "mac800" 0
  if has_data data then
    match get_word data 0 true with
    | Except.error e => Except.error e
    | Except.ok w0 =>
      if w0 = 0x4c4b then Except.ok (some "mac800", some "hfs")
      else
        match get_word data 0x400 true with
        | Except.error e => Except.error e
        | Except.ok w1 =>
          if w1 = 0x4244 then Except.ok (some "mac800", some "hfs")
          else
            match get_word data 0x400 true with
            | Except.error e => Except.error e
            | Except.ok w2 =>
              if w2 = 0xd2d7 then Except.ok (some "mac400", some "mfs")
              else Except.ok (some "mac800", none)
  else Except.ok (none, none)

/-- `probe_mac` (lines 94-131). -/
def probe_mac (acquire : Acquire) (size : MediaSize) : Except PyErr Verdict :=
  match size with
  | MediaSize.fiveTwoFive => Except.ok (none, none)
  | MediaSize.threeFive =>
    let data := acquire "ibm1440" 0
    if has_data data then
      match get_word data 0x400 true with
      | Except.error e => Except.error e
      | Except.ok w =>
        if w = 0x4244 then Except.ok (some "ibm1440", some "hfs")
        else probe_mac_phase2 acquire
    else probe_mac_phase2 acquire

/-- The `fstypes` table of `probe_amiga` (lines 150-155), keys as
character-code lists (`"DOS\x00"` .. `"DOS\x05"`). -/
def fstypes : List (List Nat × String) :=
  [([0x44, 0x4f, 0x53, 0x00], "amiga_ofs"),
   ([0x44, 0x4f, 0x53, 0x01], "amiga_ffs"),
   ([0x44, 0x4f, 0x53, 0x02], "amiga_ofs_international"),
   ([0x44, 0x4f, 0x53, 0x03], "amiga_ffs_international"),
   ([0x44, 0x4f, 0x53, 0x04], "amiga_ofs_international_dircache"),
   ([0x44, 0x4f, 0x53, 0x05], "amiga_ffs_international_dircache")]

/-- `probe_amiga` (lines 135-159). -/
def probe_amiga (acquire : Acquire) (size : MediaSize) : Except PyErr Verdict :=
  match size with
  | MediaSize.fiveTwoFive => Except.ok (none, none)
  | MediaSize.threeFive =>
    let data := acquire "amiga" 0
    if has_data data then
      match get_string data 0 4 with
      | Except.error e => Except.error e
      | Except.ok fstype => Except.ok (some "amiga", List.lookup fstype fstypes)
    else Except.ok (none, none)

/-- `probe_c64` (lines 162-179); note the short-circuit `and` between the
two directory-pointer byte checks. -/
def probe_c64 (acquire : Acquire) (size : MediaSize) : Except PyErr Verdict :=
  match size with
  | MediaSize.threeFive => Except.ok (none, none)
  | MediaSize.fiveTwoFive =>
    let data := acquire "commodore1541" 17
    if has_data data then
      match getByte data 0x16500 with
      | Except.error e => Except.error e
      | Except.ok b0 =>
        if b0 = 0x12 then
          match getByte data 0x16501 with
          | Except.error e => Except.error e
          | Except.ok b1 =>
            if b1 = 0x01 then
              match get_string data 0x165a5 2 with
              | Except.error e => Except.error e
              | Except.ok s =>
                if s = [0x32, 0x41] then
                  Except.ok (some "commodore1541", some "2A")
                else Except.ok (none, none)
            else Except.ok (none, none)
        else Except.ok (none, none)
    else Except.ok (none, none)

/-- One probe of the pipeline, as `main` (line 27) sees it. -/
abbrev ProbeFn : Type := Acquire → MediaSize → Except PyErr Verdict

/-- The probe loop of `main` (lines 27-33): run each probe, print and stop
at the first non-`None` format (`some verdict`); report unidentified
(`none`) when the list is exhausted. -/
def run_probes (acquire : Acquire) (size : MediaSize) :
    List ProbeFn → Except PyErr (Option Verdict)
  | [] => Except.ok none
  | p :: rest =>
    match p acquire size with
    | Except.error e => Except.error e
    | Except.ok (format, filesystem) =>
      match format with
      | some f => Except.ok (some (some f, filesystem))
      | none => run_probes acquire size rest

/-- The fixed probe order of `main` (line 27). -/
def probes : List ProbeFn :=
  [probe_bpb, probe_mac, probe_amiga, probe_c64]

/-- The classification pipeline of `main` (lines 27-33): `some verdict`
when a probe identified a format, `none` for "Not a common format". -/
def classify (acquire : Acquire) (size : MediaSize) :
    Except PyErr (Option Verdict) :=
  run_probes acquire size probes

/-- A Python value passed to a `bytearray(...)` call in `read_track`:
either a bytes-like object or a `str`. -/
inductive PyVal : Type
  | bytes (bs : List Nat)
  | str (s : String)

/-- `bytearray(v)` with no encoding argument: copies bytes-like input, but
raises `TypeError` on a `str` ("string argument without an encoding"). -/
def bytearray_of (v : PyVal) : Except PyErr Buffer :=
  match v with
  | PyVal.bytes bs => Except.ok bs
  | PyVal.str _ => Except.error PyErr.typeError

/-- The result handling of `read_track` (lines 218-226): the external
subprocess outcome is abstracted as its return code and, on success, the
bytes of the image file it wrote.  On `returncode = 0` the file contents
are returned as a `bytearray`; otherwise the code sets `data = ''` (a
`str`) and returns `bytearray(data)`. -/
def read_track (returncode : Nat) (file_bytes : List Nat) :
    Except PyErr Buffer :=
  if returncode = 0 then bytearray_of (PyVal.bytes file_bytes)
  else bytearray_of (PyVal.str "")

/-! ### Spec-side total formulations used in theorem statements -/

/-- The sectors-per-cluster validity test (line 70): membership in
{1,2,4,8,16,32,64,128}. -/
def valid_spc (spc : Nat) : Bool :=
  decide (spc = 1 ∨ spc = 2 ∨ spc = 4 ∨ spc = 8 ∨ spc = 16 ∨ spc = 32 ∨
    spc = 64 ∨ spc = 128)

/-- All BPB checks for one candidate, over the acquired buffer: non-empty,
boot signature `0xAA55` at `0x1FE`, jump opcode at 0, exact expected
total-sector count at `0x13`, and a valid sectors-per-cluster byte. -/
def bpb_pass (data : Buffer) (expected : Nat) : Bool :=
  has_data data && (wordD data 0x1fe false == 0xaa55) &&
    (byteD data 0 == 0xeb || byteD data 0 == 0xe9) &&
    (wordD data 0x13 false == expected) && valid_spc (byteD data 0x0d)

/-- FAT classification from the cluster count
`totalLogicalSectors / sectorsPerCluster` (real-number division, strict
thresholds 4085 and 65525). -/
def fat_class (total spc : Nat) : String :=
  if ((total : ℚ) / (spc : ℚ)) < 4085 then "fat12"
  else if ((total : ℚ) / (spc : ℚ)) < 65525 then "fat16"
  else "fat32"

/-! ### Bridging lemmas: the partial readers succeed on in-bounds offsets -/

theorem getByte_eq_ok (data : Buffer) (i : Nat) (h : i < data.length) :
    getByte data i = Except.ok (byteD data i) := by
  unfold getByte byteD
  cases hb : data.get? i with
  | none => exact absurd (List.get?_eq_none.1 hb) (Nat.not_le.2 h)
  | some b => rfl

theorem get_word_eq_ok (data : Buffer) (offset : Nat) (be : Bool)
    (h : offset + 1 < data.length) :
    get_word data offset be = Except.ok (wordD data offset be) := by
  have h0 := getByte_eq_ok data offset (Nat.lt_of_succ_lt h)
  have h1 := getByte_eq_ok data (offset + 1) h
  simp [get_word, h0, h1, wordD]

theorem get_string_eq_ok (data : Buffer) (length offset : Nat)
    (h : offset + length ≤ data.length) :
    get_string data offset length = Except.ok ((data.drop offset).take length) := by
  induction length generalizing offset with
  | zero => simp [get_string]
  | succ l ih =>
    have hofs : offset < data.length := by omega
    have hb := getByte_eq_ok data offset hofs
    have hr := ih (offset + 1) (by omega)
    simp only [get_string, hb, hr]
    rw [List.drop_eq_getElem_cons hofs, List.take_succ_cons]
    simp [byteD, List.get?_eq_getElem?, List.getElem?_eq_getElem, hofs]

/-! ### BPB probe characterization -/

theorem probe_bpb_go_cons (acquire : Acquire) (format : String) (expected : Nat)
    (rest : List (String × Nat))
    (hlen : has_data (acquire format 0) → 0x200 ≤ (acquire format 0).length) :
    probe_bpb_go acquire ((format, expected) :: rest) =
      if bpb_pass (acquire format 0) expected then
        Except.ok (some format,
          some (fat_class (wordD (acquire format 0) 0x13 false)
                          (byteD (acquire format 0) 0x0d)))
      else probe_bpb_go acquire rest := by
  by_cases hd : has_data (acquire format 0)
  · have hL := hlen hd
    have h1fe := get_word_eq_ok (acquire format 0) 0x1fe false (by omega)
    have h13 := get_word_eq_ok (acquire format 0) 0x13 false (by omega)
    have h0 := getByte_eq_ok (acquire format 0) 0 (by omega)
    have h0d := getByte_eq_ok (acquire format 0) 0x0d (by omega)
    by_cases hsig : wordD (acquire format 0) 0x1fe false = 0xaa55 <;>
      by_cases hjmp : (byteD (acquire format 0) 0 = 0xeb ∨ byteD (acquire format 0) 0 = 0xe9) <;>
      by_cases htot : wordD (acquire format 0) 0x13 false = expected <;>
      by_cases hspc : (byteD (acquire format 0) 0x0d = 1 ∨ byteD (acquire format 0) 0x0d = 2 ∨
        byteD (acquire format 0) 0x0d = 4 ∨ byteD (acquire format 0) 0x0d = 8 ∨
        byteD (acquire format 0) 0x0d = 16 ∨ byteD (acquire format 0) 0x0d = 32 ∨
        byteD (acquire format 0) 0x0d = 64 ∨ byteD (acquire format 0) 0x0d = 128) <;>
      simp [probe_bpb_go, bpb_pass, valid_spc, fat_class, hd, h1fe, h13, h0, h0d,
        hsig, hjmp, htot, hspc]
  · simp [probe_bpb_go, bpb_pass, hd]

theorem probe_bpb_go_find (acquire : Acquire) (L : List (String × Nat))
    (hlen : ∀ p ∈ L, has_data (acquire p.1 0) → 0x200 ≤ (acquire p.1 0).length) :
    probe_bpb_go acquire L =
      Except.ok (match L.find? (fun p => bpb_pass (acquire p.1 0) p.2) with
        | some p => (some p.1,
            some (fat_class (wordD (acquire p.1 0) 0x13 false)
                            (byteD (acquire p.1 0) 0x0d)))
        | none => (none, none)) := by
  induction L with
  | nil => rfl
  | cons hd tl ih =>
    obtain ⟨format, expected⟩ := hd
    rw [probe_bpb_go_cons acquire format expected tl
      (hlen (format, expected) (List.mem_cons_self _ _))]
    by_cases hp : bpb_pass (acquire format 0) expected
    · simp [List.find?, hp]
    · have := ih (fun p hq => hlen p (List.mem_cons_of_mem _ hq))
      simp only [hp, if_false, this, List.find?]
      simp [hp]

/-! ### Macintosh probe characterization -/

theorem probe_mac_phase2_eq (acquire : Acquire)
    (h2 : has_data (acquire "mac800" 0) → 0x402 ≤ (acquire "mac800" 0).length) :
    probe_mac_phase2 acquire =
      Except.ok
        (if ¬ has_data (acquire "mac800" 0) then (none, none)
        else if wordD (acquire "mac800" 0) 0 true = 0x4c4b then (some "mac800", some "hfs")
        else if wordD (acquire "mac800" 0) 0x400 true = 0x4244 then (some "mac800", some "hfs")
        else if wordD (acquire "mac800" 0) 0x400 true = 0xd2d7 then (some "mac400", some "mfs")
        else (some "mac800", none)) := by
  by_cases hd : has_data (acquire "mac800" 0)
  · have hw0 := get_word_eq_ok (acquire "mac800" 0) 0 true (by have := h2 hd; omega)
    have hw4 := get_word_eq_ok (acquire "mac800" 0) 0x400 true (by have := h2 hd; omega)
    by_cases ha : wordD (acquire "mac800" 0) 0 true = 0x4c4b <;>
      by_cases hb : wordD (acquire "mac800" 0) 0x400 true = 0x4244 <;>
      by_cases hc : wordD (acquire "mac800" 0) 0x400 true = 0xd2d7 <;>
      simp [probe_mac_phase2, hd, hw0, hw4, ha, hb, hc]
  · simp [probe_mac_phase2, hd]

theorem probe_mac_threeFive_eq (acquire : Acquire)
    (h1 : has_data (acquire "ibm1440" 0) → 0x402 ≤ (acquire "ibm1440" 0).length)
    (h2 : has_data (acquire "mac800" 0) → 0x402 ≤ (acquire "mac800" 0).length) :
    probe_mac acquire MediaSize.threeFive =
      Except.ok
        (if has_data (acquire "ibm1440" 0) ∧
            wordD (acquire "ibm1440" 0) 0x400 true = 0x4244 then
          (some "ibm1440", some "hfs")
        else if ¬ has_data (acquire "mac800" 0) then (none, none)
        else if wordD (acquire "mac800" 0) 0 true = 0x4c4b then (some "mac800", some "hfs")
        else if wordD (acquire "mac800" 0) 0x400 true = 0x4244 then (some "mac800", some "hfs")
        else if wordD (acquire "mac800" 0) 0x400 true = 0xd2d7 then (some "mac400", some "mfs")
        else (some "mac800", none)) := by
  by_cases hda : has_data (acquire "ibm1440" 0)
  · have hw := get_word_eq_ok (acquire "ibm1440" 0) 0x400 true (by have := h1 hda; omega)
    by_cases hsig : wordD (acquire "ibm1440" 0) 0x400 true = 0x4244
    · simp [probe_mac, hda, hw, hsig]
    · have hp2 := probe_mac_phase2_eq acquire h2
      simp [probe_mac, hda, hw, hsig, hp2]
  · have hp2 := probe_mac_phase2_eq acquire h2
    simp [probe_mac, hda, hp2]

/-! ### Amiga probe characterization -/

theorem probe_amiga_threeFive_eq (acquire : Acquire)
    (h : has_data (acquire "amiga" 0) → 4 ≤ (acquire "amiga" 0).length) :
    probe_amiga acquire MediaSize.threeFive =
      Except.ok
        (if has_data (acquire "amiga" 0) then
          (some "amiga", List.lookup ((acquire "amiga" 0).take 4) fstypes)
        else (none, none)) := by
  by_cases hd : has_data (acquire "amiga" 0)
  · have hs := get_string_eq_ok (acquire "amiga" 0) 4 0 (by have := h hd; omega)
    simp [probe_amiga, hd, hs]
  · simp [probe_amiga, hd]

/-! ### Commodore probe characterization -/

theorem take_two_eq (data : Buffer) (offset : Nat) (h : offset + 1 < data.length) :
    (data.drop offset).take 2 = [byteD data offset, byteD data (offset + 1)] := by
  have h0 : offset < data.length := by omega
  rw [List.drop_eq_getElem_cons h0, List.take_succ_cons,
      List.drop_eq_getElem_cons h, List.take_succ_cons, List.take_zero]
  simp [byteD, List.get?_eq_getElem?, List.getElem?_eq_getElem, h, h0]

theorem probe_c64_fiveTwoFive_eq (acquire : Acquire)
    (h : has_data (acquire "commodore1541" 17) →
      0x165a7 ≤ (acquire "commodore1541" 17).length) :
    probe_c64 acquire MediaSize.fiveTwoFive =
      Except.ok
        (if has_data (acquire "commodore1541" 17) ∧
            byteD (acquire "commodore1541" 17) 0x16500 = 0x12 ∧
            byteD (acquire "commodore1541" 17) 0x16501 = 0x01 ∧
            byteD (acquire "commodore1541" 17) 0x165a5 = 0x32 ∧
            byteD (acquire "commodore1541" 17) 0x165a6 = 0x41 then
          (some "commodore1541", some "2A")
        else (none, none)) := by
  by_cases hd : has_data (acquire "commodore1541" 17)
  · have hL := h hd
    have hb0 := getByte_eq_ok (acquire "commodore1541" 17) 0x16500 (by omega)
    have hb1 := getByte_eq_ok (acquire "commodore1541" 17) 0x16501 (by omega)
    have hs := get_string_eq_ok (acquire "commodore1541" 17) 2 0x165a5 (by omega)
    rw [take_two_eq (acquire "commodore1541" 17) 0x165a5 (by omega)] at hs
    by_cases h1 : byteD (acquire "commodore1541" 17) 0x16500 = 0x12 <;>
      by_cases h2 : byteD (acquire "commodore1541" 17) 0x16501 = 0x01 <;>
      by_cases h3 : byteD (acquire "commodore1541" 17) 0x165a5 = 0x32 <;>
      by_cases h4 : byteD (acquire "commodore1541" 17) 0x165a6 = 0x41 <;>
      simp [probe_c64, hd, hb0, hb1, hs, h1, h2, h3, h4]
  · simp [probe_c64, hd]

/-! ### Verdict invariant helpers -/

theorem probe_bpb_go_format_none (acquire : Acquire) (L : List (String × Nat))
    (fs : Option String) (h : probe_bpb_go acquire L = Except.ok (none, fs)) :
    fs = none := by
  induction L with
  | nil =>
    simp only [probe_bpb_go, Except.ok.injEq, Prod.mk.injEq] at h
    exact h.2.symm
  | cons hd tl ih =>
    obtain ⟨format, expected⟩ := hd
    simp only [probe_bpb_go] at h
    repeat' split at h
    all_goals first
      | exact ih h
      | simp_all

theorem probe_mac_format_none (acquire : Acquire) (size : MediaSize)
    (fs : Option String) (h : probe_mac acquire size = Except.ok (none, fs)) :
    fs = none := by
  cases size
  all_goals simp only [probe_mac, probe_mac_phase2] at h
  all_goals repeat' split at h
  all_goals simp_all

theorem probe_amiga_format_none (acquire : Acquire) (size : MediaSize)
    (fs : Option String) (h : probe_amiga acquire size = Except.ok (none, fs)) :
    fs = none := by
  cases size
  all_goals simp only [probe_amiga] at h
  all_goals repeat' split at h
  all_goals simp_all

theorem probe_c64_format_none (acquire : Acquire) (size : MediaSize)
    (fs : Option String) (h : probe_c64 acquire size = Except.ok (none, fs)) :
    fs = none := by
  cases size
  all_goals simp only [probe_c64] at h
  all_goals repeat' split at h
  all_goals simp_all

theorem run_probes_format_some (acquire : Acquire) (size : MediaSize)
    (ps : List ProbeFn) (v : Verdict)
    (h : run_probes acquire size ps = Except.ok (some v)) : v.1 ≠ none := by
  induction ps with
  | nil => simp [run_probes] at h
  | cons p tl ih =>
    simp only [run_probes] at h
    cases hp : p acquire size with
    | error e => simp [hp] at h
    | ok w =>
      obtain ⟨format, filesystem⟩ := w
      cases format with
      | some f =>
        simp only [hp, Except.ok.injEq, Option.some.injEq] at h
        rw [← h]
        simp
      | none =>
        simp only [hp] at h
        exact ih h

/-! ### No-data (empty or all-zero buffer) helpers -/

theorem probe_bpb_go_no_data (acquire : Acquire) (L : List (String × Nat))
    (h : ∀ p ∈ L, has_data (acquire p.1 0) = false) :
    probe_bpb_go acquire L = Except.ok (none, none) := by
  induction L with
  | nil => rfl
  | cons hd tl ih =>
    obtain ⟨format, expected⟩ := hd
    have h0 := h (format, expected) (List.mem_cons_self _ _)
    simp only [probe_bpb_go, h0]
    simp only [Bool.false_eq_true, if_false]
    exact ih (fun p hp => h p (List.mem_cons_of_mem _ hp))

/-! ### Error-freedom helpers -/

/-- The Python execution did not raise: the result is a normal value. -/
def ExceptOk {ε α : Type} (x : Except ε α) : Prop :=
  ∃ a, x = Except.ok a

theorem run_probes_ok (acquire : Acquire) (size : MediaSize) (ps : List ProbeFn)
    (h : ∀ p ∈ ps, ExceptOk (p acquire size)) :
    ExceptOk (run_probes acquire size ps) := by
  induction ps with
  | nil => exact ⟨none, rfl⟩
  | cons p tl ih =>
    obtain ⟨⟨format, filesystem⟩, hp⟩ := h p (List.mem_cons_self _ _)
    simp only [run_probes, hp]
    cases format with
    | some f => exact ⟨_, rfl⟩
    | none => exact ih (fun q hq => h q (List.mem_cons_of_mem _ hq))

/-! ### FAT12-only helpers -/

theorem fat_class_small (total spc : Nat) (htot : total ≤ 2880) (hspc : 1 ≤ spc) :
    (if ((total : ℚ) / (spc : ℚ)) < 4085 then "fat12"
     else if ((total : ℚ) / (spc : ℚ)) < 65525 then "fat16" else "fat32") = "fat12" := by
  have h0 : (0 : ℚ) ≤ (total : ℚ) := by positivity
  have h1 : (1 : ℚ) ≤ (spc : ℚ) := by exact_mod_cast hspc
  have hle : (total : ℚ) / (spc : ℚ) ≤ (total : ℚ) := div_le_self h0 h1
  have htotq : (total : ℚ) ≤ 2880 := by exact_mod_cast htot
  have hlt : (total : ℚ) / (spc : ℚ) < 4085 :=
    lt_of_le_of_lt hle (lt_of_le_of_lt htotq (by norm_num))
  rw [if_pos hlt]

theorem probe_bpb_go_fat12 (acquire : Acquire) (L : List (String × Nat))
    (hmax : ∀ p ∈ L, p.2 ≤ 2880) (f : String) (fs : Option String)
    (h : probe_bpb_go acquire L = Except.ok (some f, fs)) : fs = some "fat12" := by
  induction L with
  | nil => simp [probe_bpb_go] at h
  | cons hd tl ih =>
    obtain ⟨format, expected⟩ := hd
    have hexp : expected ≤ 2880 := hmax (format, expected) (List.mem_cons_self _ _)
    have htl : ∀ p ∈ tl, p.2 ≤ 2880 := fun p hp => hmax p (List.mem_cons_of_mem _ hp)
    by_cases hd0 : has_data (acquire format 0)
    · cases hw1 : get_word (acquire format 0) 0x1fe false with
      | error e => simp [probe_bpb_go, hd0, hw1] at h
      | ok sig =>
        by_cases hsig : sig = 0xaa55
        · cases hb0 : getByte (acquire format 0) 0 with
          | error e => simp [probe_bpb_go, hd0, hw1, hsig, hb0] at h
          | ok b0 =>
            by_cases hjmp : b0 = 0xeb ∨ b0 = 0xe9
            · cases hw13 : get_word (acquire format 0) 0x13 false with
              | error e => simp [probe_bpb_go, hd0, hw1, hsig, hb0, hjmp, hw13] at h
              | ok total =>
                by_cases htot : total = expected
                · cases hspcB : getByte (acquire format 0) 0x0d with
                  | error e =>
                    simp [probe_bpb_go, hd0, hw1, hsig, hb0, hjmp, hw13, htot, hspcB] at h
                  | ok spc =>
                    by_cases hspc : spc = 1 ∨ spc = 2 ∨ spc = 4 ∨ spc = 8 ∨
                        spc = 16 ∨ spc = 32 ∨ spc = 64 ∨ spc = 128
                    · have hspc1 : 1 ≤ spc := by
                        rcases hspc with hx | hx | hx | hx | hx | hx | hx | hx <;> omega
                      have hfc := fat_class_small expected spc hexp hspc1
                      simp [probe_bpb_go, hd0, hw1, hsig, hb0, hjmp, hw13, htot, hspcB,
                        hspc, hfc] at h
                      exact h.2.symm
                    · simp only [probe_bpb_go, hw1, hb0, hw13, hspcB] at h
                      rw [if_pos hd0, if_pos hsig, if_pos hjmp, if_pos htot,
                        if_neg hspc] at h
                      exact ih htl h
                · simp only [probe_bpb_go, hw1, hb0, hw13] at h
                  rw [if_pos hd0, if_pos hsig, if_pos hjmp, if_neg htot] at h
                  exact ih htl h
            · simp only [probe_bpb_go, hw1, hb0] at h
              rw [if_pos hd0, if_pos hsig, if_neg hjmp] at h
              exact ih htl h
        · simp only [probe_bpb_go, hw1] at h
          rw [if_pos hd0, if_neg hsig] at h
          exact ih htl h
    · simp only [probe_bpb_go] at h
      rw [if_neg hd0] at h
      exact ih htl h

/-! ### Concrete acquisition functions used as test inputs -/

/-- Acquisition that always yields an empty buffer (failed or blank). -/
def emptyAcquire : Acquire := fun _ _ => []

/-- A 512-byte track-0 image holding a valid FAT12 BPB for `ibm1440`:
jump opcode 0xEB, 1 sector per cluster, 2880 total sectors (0x0B40),
boot signature 0xAA55. -/
def fatTestBuf : Buffer :=
  (List.range 512).map (fun i =>
    if i = 0 then 0xeb else if i = 0x0d then 1 else if i = 0x13 then 0x40
    else if i = 0x14 then 0xb else if i = 0x1fe then 0x55
    else if i = 0x1ff then 0xaa else 0)

/-- Acquisition serving `fatTestBuf` for the `ibm1440` decoder. -/
def fatTestAcquire : Acquire := fun s _ => if s = "ibm1440" then fatTestBuf else []

/-- A 0x402-byte `mac800` track-0 image starting with the HFS boot-block
signature 0x4C4B. -/
def macTestBuf : Buffer :=
  (List.range 0x402).map (fun i => if i = 0 then 0x4c else if i = 1 then 0x4b else 0)

/-- Acquisition serving `macTestBuf` for the `mac800` decoder. -/
def macTestAcquire : Acquire := fun s _ => if s = "mac800" then macTestBuf else []

/-- Acquisition serving the 4-byte Amiga FFS boot tag `DOS\x01`. -/
def amigaTestAcquire : Acquire :=
  fun s _ => if s = "amiga" then [0x44, 0x4f, 0x53, 0x01] else []

/-- Acquisition yielding a non-zero buffer far shorter than the fields the
probes read. -/
def shortAcquire : Acquire := fun _ _ => [1]

/-! ### Claims -/

/-- Claim C1: `classify` runs the four probes in the fixed order BPB/FAT,
Macintosh, Amiga, Commodore 1541 against one set of media parameters; the
first probe to return a verdict with a non-none format short-circuits all
remaining probes and its verdict is the final answer, and if every probe
returns `(none, none)` the result is unidentified (`none`), distinct from
any specific verdict. -/
theorem classify_pipeline (acquire : Acquire) (size : MediaSize) :
    (∀ f fs, probe_bpb acquire size = Except.ok (some f, fs) →
      classify acquire size = Except.ok (some (some f, fs))) ∧
    (∀ fsa f fs, probe_bpb acquire size = Except.ok (none, fsa) →
      probe_mac acquire size = Except.ok (some f, fs) →
      classify acquire size = Except.ok (some (some f, fs))) ∧
    (∀ fsa fsb f fs, probe_bpb acquire size = Except.ok (none, fsa) →
      probe_mac acquire size = Except.ok (none, fsb) →
      probe_amiga acquire size = Except.ok (some f, fs) →
      classify acquire size = Except.ok (some (some f, fs))) ∧
    (∀ fsa fsb fsc f fs, probe_bpb acquire size = Except.ok (none, fsa) →
      probe_mac acquire size = Except.ok (none, fsb) →
      probe_amiga acquire size = Except.ok (none, fsc) →
      probe_c64 acquire size = Except.ok (some f, fs) →
      classify acquire size = Except.ok (some (some f, fs))) ∧
    (∀ fsa fsb fsc fsd, probe_bpb acquire size = Except.ok (none, fsa) →
      probe_mac acquire size = Except.ok (none, fsb) →
      probe_amiga acquire size = Except.ok (none, fsc) →
      probe_c64 acquire size = Except.ok (none, fsd) →
      classify acquire size = Except.ok none) ∧
    (∀ v : Verdict, (some v : Option Verdict) ≠ none) := by
  refine ⟨?_, ?_, ?_, ?_, ?_, ?_⟩
  · intro f fs h1
    simp [classify, probes, run_probes, h1]
  · intro fsa f fs h1 h2
    simp [classify, probes, run_probes, h1, h2]
  · intro fsa fsb f fs h1 h2 h3
    simp [classify, probes, run_probes, h1, h2, h3]
  · intro fsa fsb fsc f fs h1 h2 h3 h4
    simp [classify, probes, run_probes, h1, h2, h3, h4]
  · intro fsa fsb fsc fsd h1 h2 h3 h4
    simp [classify, probes, run_probes, h1, h2, h3, h4]
  · intro v
    simp

/-- Witness for C1 at a concrete no-signal acquisition: all four probes
return `(none, none)` and the pipeline reports unidentified. -/
theorem classify_pipeline_witness :
    classify emptyAcquire MediaSize.threeFive = Except.ok none :=
  (classify_pipeline emptyAcquire MediaSize.threeFive).2.2.2.2.1
    none none none none rfl rfl rfl rfl

/-- Claim C2: for every media-parameters value, the BPB/FAT probe iterates
the media-size candidate table (3.5-inch: ibm1440:2880, ibm720:1440;
5.25-inch: ibm1200:2400, ibm360:720, ibm320:640, ibm180:360, ibm160:320)
and returns `(formatTag, filesystemTag)` for the first candidate whose
acquired track-0 buffer is non-empty/non-zero, has little-endian 0xAA55 at
offset 0x1FE, first byte 0xEB or 0xE9, little-endian word at offset 0x13
exactly equal to the candidate's expected total sector count, and a
sectors-per-cluster byte at 0x0D in {1,2,4,8,16,32,64,128}; the filesystem
tag comes from clusterCount = totalLogicalSectors / sectorsPerCluster with
real-number division and strict comparisons (< 4085 fat12, < 65525 fat16,
else fat32); a candidate failing any check is skipped and exhausting all
candidates yields `(none, none)`.  Stated for buffers that satisfy the
buffer-size contract (at least 0x200 bytes when non-zero). -/
theorem probe_bpb_characterization (acquire : Acquire) (size : MediaSize)
    (hlen : ∀ p ∈ bpb_probes size,
      has_data (acquire p.1 0) → 0x200 ≤ (acquire p.1 0).length) :
    bpb_probes MediaSize.threeFive = [("ibm1440", 2880), ("ibm720", 1440)] ∧
    bpb_probes MediaSize.fiveTwoFive =
      [("ibm1200", 2400), ("ibm360", 720), ("ibm320", 640),
       ("ibm180", 360), ("ibm160", 320)] ∧
    probe_bpb acquire size =
      Except.ok
        (match (bpb_probes size).find? (fun p => bpb_pass (acquire p.1 0) p.2) with
          | some p => (some p.1,
              some (fat_class (wordD (acquire p.1 0) 0x13 false)
                              (byteD (acquire p.1 0) 0x0d)))
          | none => (none, none)) :=
  ⟨rfl, rfl, probe_bpb_go_find acquire (bpb_probes size) hlen⟩

set_option maxRecDepth 1000000 in
/-- Evaluation of the BPB probe on the synthesized FAT12 `ibm1440` boot
sector, via the candidate characterization. -/
theorem probe_bpb_fatTest_eval :
    probe_bpb fatTestAcquire MediaSize.threeFive =
      Except.ok (some "ibm1440", some "fat12") := by
  have h : probe_bpb fatTestAcquire MediaSize.threeFive =
      Except.ok
        (match (bpb_probes MediaSize.threeFive).find?
            (fun p => bpb_pass (fatTestAcquire p.1 0) p.2) with
          | some p => (some p.1,
              some (fat_class (wordD (fatTestAcquire p.1 0) 0x13 false)
                              (byteD (fatTestAcquire p.1 0) 0x0d)))
          | none => (none, none)) :=
    probe_bpb_go_find fatTestAcquire (bpb_probes MediaSize.threeFive) (by decide)
  rw [h]
  have hfind : (bpb_probes MediaSize.threeFive).find?
      (fun p => bpb_pass (fatTestAcquire p.1 0) p.2) = some ("ibm1440", 2880) := by
    decide
  have h13 : wordD (fatTestAcquire "ibm1440" 0) 0x13 false = 2880 := by decide
  have h0d : byteD (fatTestAcquire "ibm1440" 0) 0x0d = 1 := by decide
  simp only [hfind, h13, h0d]
  norm_num [fat_class]

set_option maxRecDepth 1000000 in
/-- Witness for C2: a synthesized valid FAT12 boot sector for `ibm1440` is
accepted by the first candidate of the 3.5-inch table. -/
theorem probe_bpb_characterization_witness :
    probe_bpb fatTestAcquire MediaSize.threeFive =
      Except.ok (some "ibm1440", some "fat12") := by
  have h := (probe_bpb_characterization fatTestAcquire MediaSize.threeFive
    (by decide)).2.2
  rw [h]
  have hfind : (bpb_probes MediaSize.threeFive).find?
      (fun p => bpb_pass (fatTestAcquire p.1 0) p.2) = some ("ibm1440", 2880) := by
    decide
  have h13 : wordD (fatTestAcquire "ibm1440" 0) 0x13 false = 2880 := by decide
  have h0d : byteD (fatTestAcquire "ibm1440" 0) 0x0d = 1 := by decide
  simp only [hfind, h13, h0d]
  norm_num [fat_class]

/-- Claim C3: for 5.25-inch media the Macintosh probe returns
`(none, none)` whatever the acquisition yields; otherwise, if the ibm1440
track-0 read is non-empty and the big-endian word at 0x400 is 0x4244 it
returns (ibm1440, hfs); otherwise it reads track 0 with decoder mac800 and
returns (none, none) if that buffer is empty/all-zero, (mac800, hfs) if
the big-endian word at 0 is 0x4C4B, else (mac800, hfs) if the word at
0x400 is 0x4244, else (mac400, mfs) if that word is 0xD2D7, otherwise
(mac800, none) — in exactly that order.  Stated for buffers that satisfy
the buffer-size contract (at least 0x402 bytes when non-zero). -/
theorem probe_mac_characterization :
    (∀ acquire : Acquire,
      probe_mac acquire MediaSize.fiveTwoFive = Except.ok (none, none)) ∧
    (∀ acquire : Acquire,
      (has_data (acquire "ibm1440" 0) → 0x402 ≤ (acquire "ibm1440" 0).length) →
      (has_data (acquire "mac800" 0) → 0x402 ≤ (acquire "mac800" 0).length) →
      probe_mac acquire MediaSize.threeFive =
        Except.ok
          (if has_data (acquire "ibm1440" 0) ∧
              wordD (acquire "ibm1440" 0) 0x400 true = 0x4244 then
            (some "ibm1440", some "hfs")
          else if ¬ has_data (acquire "mac800" 0) then (none, none)
          else if wordD (acquire "mac800" 0) 0 true = 0x4c4b then
            (some "mac800", some "hfs")
          else if wordD (acquire "mac800" 0) 0x400 true = 0x4244 then
            (some "mac800", some "hfs")
          else if wordD (acquire "mac800" 0) 0x400 true = 0xd2d7 then
            (some "mac400", some "mfs")
          else (some "mac800", none))) :=
  ⟨fun _ => rfl, fun acquire h1 h2 => probe_mac_threeFive_eq acquire h1 h2⟩

set_option maxRecDepth 1000000 in
/-- Witness for C3: a mac800 track 0 starting with the HFS boot-block
signature classifies as (mac800, hfs). -/
theorem probe_mac_characterization_witness :
    probe_mac macTestAcquire MediaSize.threeFive =
      Except.ok (some "mac800", some "hfs") := by
  have h := probe_mac_characterization.2 macTestAcquire (by decide) (by decide)
  rw [h]
  have hd1 : has_data (macTestAcquire "ibm1440" 0) = false := by decide
  have hd8 : has_data (macTestAcquire "mac800" 0) = true := by decide
  have hw0 : wordD (macTestAcquire "mac800" 0) 0 true = 0x4c4b := by decide
  simp [hd1, hd8, hw0]

/-- Claim C4: for 5.25-inch media the Amiga probe returns `(none, none)`;
otherwise, if the track-0 buffer acquired with decoder amiga is
empty/all-zero it returns `(none, none)`, and for every buffer with data
it always returns format amiga, with the filesystem taken from the
4-character tag at offset 0 via the fixed table DOS\x00..DOS\x05, and
filesystem none for any tag outside that table.  Stated for buffers of
length at least 4 when non-zero, per the buffer-size contract. -/
theorem probe_amiga_characterization :
    fstypes = [([0x44, 0x4f, 0x53, 0x00], "amiga_ofs"),
      ([0x44, 0x4f, 0x53, 0x01], "amiga_ffs"),
      ([0x44, 0x4f, 0x53, 0x02], "amiga_ofs_international"),
      ([0x44, 0x4f, 0x53, 0x03], "amiga_ffs_international"),
      ([0x44, 0x4f, 0x53, 0x04], "amiga_ofs_international_dircache"),
      ([0x44, 0x4f, 0x53, 0x05], "amiga_ffs_international_dircache")] ∧
    (∀ acquire : Acquire,
      probe_amiga acquire MediaSize.fiveTwoFive = Except.ok (none, none)) ∧
    (∀ acquire : Acquire, has_data (acquire "amiga" 0) = false →
      probe_amiga acquire MediaSize.threeFive = Except.ok (none, none)) ∧
    (∀ acquire : Acquire, has_data (acquire "amiga" 0) →
      4 ≤ (acquire "amiga" 0).length →
      probe_amiga acquire MediaSize.threeFive =
        Except.ok (some "amiga",
          List.lookup ((acquire "amiga" 0).take 4) fstypes)) ∧
    (∀ tag : List Nat, (∀ q ∈ fstypes, tag ≠ q.1) →
      List.lookup tag fstypes = none) := by
  refine ⟨rfl, fun _ => rfl, ?_, ?_, ?_⟩
  · intro acquire h
    simp [probe_amiga, h]
  · intro acquire h hlen
    have heq := probe_amiga_threeFive_eq acquire (fun _ => hlen)
    rw [heq, if_pos h]
  · intro tag htag
    have h0 : (tag == [0x44, 0x4f, 0x53, 0x00]) = false :=
      beq_eq_false_iff_ne.2
        (htag ([0x44, 0x4f, 0x53, 0x00], "amiga_ofs") (by simp [fstypes]))
    have h1 : (tag == [0x44, 0x4f, 0x53, 0x01]) = false :=
      beq_eq_false_iff_ne.2
        (htag ([0x44, 0x4f, 0x53, 0x01], "amiga_ffs") (by simp [fstypes]))
    have h2 : (tag == [0x44, 0x4f, 0x53, 0x02]) = false :=
      beq_eq_false_iff_ne.2
        (htag ([0x44, 0x4f, 0x53, 0x02], "amiga_ofs_international") (by simp [fstypes]))
    have h3 : (tag == [0x44, 0x4f, 0x53, 0x03]) = false :=
      beq_eq_false_iff_ne.2
        (htag ([0x44, 0x4f, 0x53, 0x03], "amiga_ffs_international") (by simp [fstypes]))
    have h4 : (tag == [0x44, 0x4f, 0x53, 0x04]) = false :=
      beq_eq_false_iff_ne.2
        (htag ([0x44, 0x4f, 0x53, 0x04], "amiga_ofs_international_dircache") (by simp [fstypes]))
    have h5 : (tag == [0x44, 0x4f, 0x53, 0x05]) = false :=
      beq_eq_false_iff_ne.2
        (htag ([0x44, 0x4f, 0x53, 0x05], "amiga_ffs_international_dircache") (by simp [fstypes]))
    simp [fstypes, List.lookup, h0, h1, h2, h3, h4, h5]

/-- Witness for C4: the `DOS\x01` tag maps to the FFS filesystem. -/
theorem probe_amiga_characterization_witness :
    probe_amiga amigaTestAcquire MediaSize.threeFive =
      Except.ok (some "amiga", some "amiga_ffs") := by
  have h := probe_amiga_characterization.2.2.2.1 amigaTestAcquire
    (by decide) (by decide)
  rw [h]
  rfl

/-- Claim C5: the Commodore probe returns (commodore1541, "2A") exactly
when the media is 5.25-inch, the track-17 buffer acquired with decoder
commodore1541 has data, the bytes at 0x16500 and 0x16501 are 0x12 and
0x01, and the two ASCII characters at 0x165A5 are "2A"; in every other
case — including any single failing check and 3.5-inch media, where the
result is independent of any acquisition — it returns (none, none).
Stated for buffers that satisfy the buffer-size contract (at least
0x165A7 bytes when non-zero). -/
theorem probe_c64_characterization :
    (∀ acquire : Acquire,
      probe_c64 acquire MediaSize.threeFive = Except.ok (none, none)) ∧
    (∀ acquire : Acquire,
      (has_data (acquire "commodore1541" 17) →
        0x165a7 ≤ (acquire "commodore1541" 17).length) →
      probe_c64 acquire MediaSize.fiveTwoFive =
        Except.ok
          (if has_data (acquire "commodore1541" 17) ∧
              byteD (acquire "commodore1541" 17) 0x16500 = 0x12 ∧
              byteD (acquire "commodore1541" 17) 0x16501 = 0x01 ∧
              byteD (acquire "commodore1541" 17) 0x165a5 = 0x32 ∧
              byteD (acquire "commodore1541" 17) 0x165a6 = 0x41 then
            (some "commodore1541", some "2A")
          else (none, none))) :=
  ⟨fun _ => rfl, fun acquire h => probe_c64_fiveTwoFive_eq acquire h⟩

/-- Witness for C5: a no-signal commodore1541 track 17 yields
`(none, none)` on 5.25-inch media. -/
theorem probe_c64_characterization_witness :
    probe_c64 emptyAcquire MediaSize.fiveTwoFive = Except.ok (none, none) := by
  have h := probe_c64_characterization.2 emptyAcquire (by decide)
  rw [h]
  rfl

/-- Claim C6: every verdict produced by any of the four probes, and the
final verdict of the pipeline, satisfies the invariant that a none format
is never paired with a non-none filesystem: no probe returns a filesystem
tag with a none format, and a pipeline verdict always carries a format. -/
theorem probe_verdict_invariant (acquire : Acquire) (size : MediaSize) :
    (∀ fs, probe_bpb acquire size = Except.ok (none, fs) → fs = none) ∧
    (∀ fs, probe_mac acquire size = Except.ok (none, fs) → fs = none) ∧
    (∀ fs, probe_amiga acquire size = Except.ok (none, fs) → fs = none) ∧
    (∀ fs, probe_c64 acquire size = Except.ok (none, fs) → fs = none) ∧
    (∀ v : Verdict, classify acquire size = Except.ok (some v) → v.1 ≠ none) :=
  ⟨fun fs h => probe_bpb_go_format_none acquire (bpb_probes size) fs h,
   fun fs h => probe_mac_format_none acquire size fs h,
   fun fs h => probe_amiga_format_none acquire size fs h,
   fun fs h => probe_c64_format_none acquire size fs h,
   fun v h => run_probes_format_some acquire size probes v h⟩

/-- Witness for C6: the BPB probe on a no-signal acquisition returns
`(none, none)`, and the invariant instance gives filesystem none. -/
theorem probe_verdict_invariant_witness :
    probe_bpb emptyAcquire MediaSize.threeFive = Except.ok (none, none) ∧
      (none : Option String) = none :=
  ⟨rfl, (probe_verdict_invariant emptyAcquire MediaSize.threeFive).1 none rfl⟩

/-- Claim C7: `has_data` is true iff the buffer contains at least one
non-zero byte — an empty buffer and a uniformly zero buffer both give
false — and every probe, when each buffer it acquires is such a no-signal
buffer, skips interpretation and returns `(none, none)`. -/
theorem has_data_spec :
    (∀ data : Buffer, has_data data = true ↔ ∃ b ∈ data, b ≠ 0) ∧
    (∀ acquire : Acquire, (∀ s c, has_data (acquire s c) = false) →
      ∀ size, probe_bpb acquire size = Except.ok (none, none) ∧
        probe_mac acquire size = Except.ok (none, none) ∧
        probe_amiga acquire size = Except.ok (none, none) ∧
        probe_c64 acquire size = Except.ok (none, none)) := by
  constructor
  · intro data
    rw [has_data, decide_eq_true_eq]
    constructor
    · intro hpos
      obtain ⟨b, hb⟩ := List.exists_mem_of_length_pos hpos
      have hmem := List.mem_filter.1 hb
      exact ⟨b, hmem.1, by simpa using hmem.2⟩
    · rintro ⟨b, hbmem, hbne⟩
      have hmem : b ∈ data.filter (fun x => x != 0) :=
        List.mem_filter.2 ⟨hbmem, by simpa using hbne⟩
      exact List.length_pos.2 (List.ne_nil_of_mem hmem)
  · intro acquire hnone size
    refine ⟨?_, ?_, ?_, ?_⟩
    · exact probe_bpb_go_no_data acquire (bpb_probes size) (fun p hp => hnone p.1 0)
    · cases size with
      | fiveTwoFive => rfl
      | threeFive =>
        simp [probe_mac, probe_mac_phase2, hnone "ibm1440" 0, hnone "mac800" 0]
    · cases size with
      | fiveTwoFive => rfl
      | threeFive => simp [probe_amiga, hnone "amiga" 0]
    · cases size with
      | threeFive => rfl
      | fiveTwoFive => simp [probe_c64, hnone "commodore1541" 17]

/-- Witness for C7: with an acquisition yielding only empty buffers, all
four probes return `(none, none)`. -/
theorem has_data_spec_witness :
    probe_bpb emptyAcquire MediaSize.threeFive = Except.ok (none, none) ∧
      probe_mac emptyAcquire MediaSize.threeFive = Except.ok (none, none) ∧
      probe_amiga emptyAcquire MediaSize.threeFive = Except.ok (none, none) ∧
      probe_c64 emptyAcquire MediaSize.threeFive = Except.ok (none, none) :=
  has_data_spec.2 emptyAcquire (fun _ _ => rfl) MediaSize.threeFive

/-- Counterexample to claim C8 as stated: `has_data` checks only that some
byte is non-zero, not that the buffer is large enough, so on a 1-byte
non-zero buffer the BPB probe reads past the end of the buffer and the
index-out-of-range violation is reached. -/
theorem probe_bpb_short_buffer_reads_past_end :
    probe_bpb shortAcquire MediaSize.threeFive = Except.error PyErr.indexError :=
  rfl

/-- Claim C8 (amended): a probe never reads past the end of an acquired
buffer provided every buffer that has data is at least as long as the
region that probe reads (0x200 bytes for each BPB candidate, 0x402 for the
two Macintosh reads, 4 for Amiga, 0x165A7 for Commodore); under those size
conditions no probe and no pipeline run reaches the index-out-of-range
violation.  The probes' own `has_data` checks do not enforce these bounds;
they exclude only empty and all-zero buffers. -/
theorem probes_no_out_of_range (acquire : Acquire) (size : MediaSize)
    (h1 : ∀ p ∈ bpb_probes size,
      has_data (acquire p.1 0) → 0x200 ≤ (acquire p.1 0).length)
    (h2 : has_data (acquire "ibm1440" 0) → 0x402 ≤ (acquire "ibm1440" 0).length)
    (h3 : has_data (acquire "mac800" 0) → 0x402 ≤ (acquire "mac800" 0).length)
    (h4 : has_data (acquire "amiga" 0) → 4 ≤ (acquire "amiga" 0).length)
    (h5 : has_data (acquire "commodore1541" 17) →
      0x165a7 ≤ (acquire "commodore1541" 17).length) :
    ExceptOk (probe_bpb acquire size) ∧ ExceptOk (probe_mac acquire size) ∧
      ExceptOk (probe_amiga acquire size) ∧ ExceptOk (probe_c64 acquire size) ∧
      ExceptOk (classify acquire size) := by
  have hbpb : ExceptOk (probe_bpb acquire size) :=
    ⟨_, probe_bpb_go_find acquire (bpb_probes size) h1⟩
  have hmac : ExceptOk (probe_mac acquire size) := by
    cases size with
    | fiveTwoFive => exact ⟨_, rfl⟩
    | threeFive => exact ⟨_, probe_mac_threeFive_eq acquire h2 h3⟩
  have hamiga : ExceptOk (probe_amiga acquire size) := by
    cases size with
    | fiveTwoFive => exact ⟨_, rfl⟩
    | threeFive => exact ⟨_, probe_amiga_threeFive_eq acquire h4⟩
  have hc64 : ExceptOk (probe_c64 acquire size) := by
    cases size with
    | threeFive => exact ⟨_, rfl⟩
    | fiveTwoFive => exact ⟨_, probe_c64_fiveTwoFive_eq acquire h5⟩
  refine ⟨hbpb, hmac, hamiga, hc64, ?_⟩
  apply run_probes_ok
  intro p hp
  simp only [probes, List.mem_cons, List.not_mem_nil, or_false] at hp
  rcases hp with rfl | rfl | rfl | rfl
  · exact hbpb
  · exact hmac
  · exact hamiga
  · exact hc64

/-- Witness for C8 (amended): with empty buffers the size conditions hold
vacuously and the whole pipeline runs without an index error. -/
theorem probes_no_out_of_range_witness :
    ExceptOk (classify emptyAcquire MediaSize.threeFive) :=
  (probes_no_out_of_range emptyAcquire MediaSize.threeFive (by decide) (by decide)
    (by decide) (by decide) (by decide)).2.2.2.2

/-- Claim C9: on acquisition failure (nonzero return code of the capture
command) `read_track` is meant to return an empty buffer so the pipeline
continues, but the failure branch sets `data` to an empty `str` and
`bytearray(data)` without an encoding raises TypeError instead; the
success branch returns the image-file bytes. -/
theorem read_track_failure_raises :
    read_track 1 [] = Except.error PyErr.typeError ∧
      read_track 0 [0xe9] = Except.ok [0xe9] :=
  ⟨rfl, rfl⟩

/-- Claim C10: whenever the BPB/FAT probe returns a non-none format, its
filesystem tag is fat12: every expected total-sector count in both
candidate tables is at most 2880 and sectors-per-cluster is at least 1, so
clusterCount is at most 2880, below the 4085 FAT12 threshold, making the
fat16 and fat32 branches unreachable. -/
theorem probe_bpb_always_fat12 (acquire : Acquire) (size : MediaSize)
    (f : String) (fs : Option String)
    (h : probe_bpb acquire size = Except.ok (some f, fs)) : fs = some "fat12" := by
  have hmax : ∀ p ∈ bpb_probes size, p.2 ≤ 2880 := by
    cases size <;> decide
  exact probe_bpb_go_fat12 acquire (bpb_probes size) hmax f fs h

/-- Witness for C10: the synthesized FAT12 boot sector is accepted with a
non-none format, and the filesystem is indeed fat12. -/
theorem probe_bpb_always_fat12_witness :
    probe_bpb fatTestAcquire MediaSize.threeFive =
        Except.ok (some "ibm1440", some "fat12") ∧
      (some "fat12" : Option String) = some "fat12" :=
  ⟨probe_bpb_fatTest_eval,
   probe_bpb_always_fat12 fatTestAcquire MediaSize.threeFive "ibm1440"
     (some "fat12") probe_bpb_fatTest_eval⟩
